import Mathlib

/-!
Verification development for the TR123e Moog ladder filter family.

The C++ sources are shallowly embedded over exact arithmetic:
`float`/`double` values become `ℚ`, C `int` becomes `ℤ`.  Transcendental
library calls (`tanf`, `tanhf`, `sqrtf`, `logf`) and the NEON hardware
reciprocal estimate `vrecpeq_f32` have no exact rational meaning, so each
embedded operation that uses one is parametrized by an explicit function
argument standing for it; everything else is translated literally from the
source, statement by statement.
-/

namespace TR123e

/-! ## Shared utility functions (src/zdf_moogladder_v2.cpp, src/DEV/MoogLadderFilterBase.h,
src/DEV/MoogLadderFilterFixedPoint.h) -/

/-- `clamp_float` from zdf_moogladder_v2.cpp:
`(x < minVal) ? minVal : (x > maxVal) ? maxVal : x`. -/
def clamp_float (x minVal maxVal : ℚ) : ℚ :=
  if x < minVal then minVal else if x > maxVal then maxVal else x

/-- `clamp` from MoogLadderFilterBase.h: `std::min(std::max(x, a), b)`. -/
def clamp (x a b : ℚ) : ℚ := min (max x a) b

/-- `std::clamp(v, lo, hi)`: `v < lo ? lo : (hi < v ? hi : v)`. -/
def stdClamp (v lo hi : ℚ) : ℚ := if v < lo then lo else if hi < v then hi else v

/-- `fixdenorm` from MoogLadderFilterBase.h (single precision guard):
`(fabsf(val) < 1e-30f) ? 0.0f : val`. -/
def fixdenorm (val : ℚ) : ℚ := if |val| < 1e-30 then 0 else val

/-- `MSPMoogLadderFilter::fixDenormalNumbers` (double precision guard):
`if (std::abs(value) < 1e-18) return 0.0; return value;`. -/
def fixDenormalNumbers (value : ℚ) : ℚ := if |value| < 1e-18 then 0 else value

/-- `clamp_int` from MoogLadderFilterFixedPoint.h:
`(x < minVal) ? minVal : (x > maxVal) ? maxVal : x`. -/
def clamp_int (x minVal maxVal : ℤ) : ℤ :=
  if x < minVal then minVal else if x > maxVal then maxVal else x

/-! ## ZDF Moog ladder filter (src/zdf_moogladder_v2.cpp)

The filter state.  `mode` is kept as a raw `ℤ` mirroring the C++ enum's
underlying integer; `LP24 = 0`, `BP12 = 1`, `HP24 = 2`.  `G` is produced by
`tanf(M_PI * cutoffHz / sampleRate)`; the embedding passes the map
`x ↦ tan (π x)` as an explicit parameter `tanPi` applied to
`cutoffHz / sampleRate`. -/
structure ZDFMoogLadderFilter where
  sampleRate : ℚ
  resonance : ℚ
  feedbackGain : ℚ
  G : ℚ
  drive : ℚ
  mode : ℤ
  stage0 : ℚ
  stage1 : ℚ
  stage2 : ℚ
  stage3 : ℚ
  z0 : ℚ
  z1 : ℚ
  z2 : ℚ
  z3 : ℚ
  deriving DecidableEq, Repr

namespace ZDFMoogLadderFilter

/-- `ZDFMoogLadderFilter::setCutoff`. -/
def setCutoff (tanPi : ℚ → ℚ) (f : ZDFMoogLadderFilter) (cutoffHz : ℚ) :
    ZDFMoogLadderFilter :=
  let c := clamp_float cutoffHz 20 (f.sampleRate * 0.45)
  { f with G := tanPi (c / f.sampleRate), feedbackGain := f.resonance * 4 }

/-- `ZDFMoogLadderFilter::setResonance`. -/
def setResonance (f : ZDFMoogLadderFilter) (r : ℚ) : ZDFMoogLadderFilter :=
  let res := clamp_float r 0 1
  { f with resonance := res, feedbackGain := res * 4 }

/-- `ZDFMoogLadderFilter::setMode`: invalid modes are silently ignored. -/
def setMode (f : ZDFMoogLadderFilter) (newMode : ℤ) : ZDFMoogLadderFilter :=
  if 0 ≤ newMode ∧ newMode ≤ 2 then { f with mode := newMode } else f

/-- `ZDFMoogLadderFilter::setDrive`. -/
def setDrive (f : ZDFMoogLadderFilter) (driveAmount : ℚ) : ZDFMoogLadderFilter :=
  { f with drive := clamp_float driveAmount 0 1 }

/-- `ZDFMoogLadderFilter::reset`: zero the stage outputs and integrator states. -/
def reset (f : ZDFMoogLadderFilter) : ZDFMoogLadderFilter :=
  { f with stage0 := 0, stage1 := 0, stage2 := 0, stage3 := 0,
           z0 := 0, z1 := 0, z2 := 0, z3 := 0 }

/-- The constructor `ZDFMoogLadderFilter(float sampleRate)`: member inits
(`drive = 1`, `mode = LP24`), then `reset()`, `setCutoff(1000)`,
`setResonance(0.5)`.  The not-yet-assigned members start as the given
`init` values (they are overwritten before use, exactly as in C++ where
they are indeterminate until the constructor body runs). -/
def construct (tanPi : ℚ → ℚ) (sampleRate : ℚ) (initRes initFb initG : ℚ) :
    ZDFMoogLadderFilter :=
  let f : ZDFMoogLadderFilter :=
    { sampleRate := sampleRate, resonance := initRes, feedbackGain := initFb,
      G := initG, drive := 1, mode := 0,
      stage0 := 0, stage1 := 0, stage2 := 0, stage3 := 0,
      z0 := 0, z1 := 0, z2 := 0, z3 := 0 }
  setResonance (setCutoff tanPi f.reset 1000) 0.5

/-- One TPT ladder stage of `ZDFMoogLadderFilter::process` (one iteration of
the `for` loop): `v = (u - z)/(1 + G); stage = v + z; z = stage + v; u = stage`.
Returns `(stage, z, u)` after the iteration. -/
def tptStage (G u z : ℚ) : ℚ × ℚ × ℚ :=
  let v := (u - z) / (1 + G)
  let st := v + z
  (st, st + v, st)

/-- `ZDFMoogLadderFilter::process`, translated statement by statement.
`tanhF` is the stand-in for `tanhf`.  Returns the output sample and the
updated filter. -/
def process (tanhF : ℚ → ℚ) (f : ZDFMoogLadderFilter) (input : ℚ) :
    ℚ × ZDFMoogLadderFilter :=
  let fb : ℚ := if f.drive > 0.001 then tanhF (f.stage3 * f.drive) else f.stage3
  let u0 := input - f.feedbackGain * fb
  let r0 := tptStage f.G u0 f.z0
  let r1 := tptStage f.G r0.2.2 f.z1
  let r2 := tptStage f.G r1.2.2 f.z2
  let r3 := tptStage f.G r2.2.2 f.z3
  let st0 := r0.1; let z0 := r0.2.1
  let st1 := r1.1; let z1 := r1.2.1
  let st2 := r2.1; let z2 := r2.2.1
  let st3 := r3.1; let z3 := r3.2.1
  let out : ℚ :=
    if f.mode = 0 then st3
    else if f.mode = 1 then st2 - st3
    else if f.mode = 2 then input - st3
    else st3
  (out, { f with stage0 := st0, stage1 := st1, stage2 := st2, stage3 := st3,
                 z0 := z0, z1 := z1, z2 := z2, z3 := z3 })

end ZDFMoogLadderFilter

/-! ### Spec-side description of the ZDF per-sample algorithm (C1)

Written from the spec's sentences: feedback sample = `stage[3]`,
soft-saturated *whenever drive > 0*; `u = x − feedbackGain·fb`; per stage
`v = (u − z)/(1+G)`, `stage = v + z`, `z = stage + v`, `u = stage`; output
selected by mode (`LP24 → stage[3]`, `BP12 → stage[2] − stage[3]`,
`HP24 → x − stage[3]`, unknown → `stage[3]`). -/
def zdfSpecStep (sat : ℚ → ℚ) (f : ZDFMoogLadderFilter) (x : ℚ) :
    ℚ × ZDFMoogLadderFilter :=
  let fb : ℚ := if f.drive > 0 then sat (f.stage3 * f.drive) else f.stage3
  let u0 := x - f.feedbackGain * fb
  let v0 := (u0 - f.z0) / (1 + f.G)
  let s0 := v0 + f.z0
  let v1 := (s0 - f.z1) / (1 + f.G)
  let s1 := v1 + f.z1
  let v2 := (s1 - f.z2) / (1 + f.G)
  let s2 := v2 + f.z2
  let v3 := (s2 - f.z3) / (1 + f.G)
  let s3 := v3 + f.z3
  let out : ℚ :=
    if f.mode = 0 then s3
    else if f.mode = 1 then s2 - s3
    else if f.mode = 2 then x - s3
    else s3
  (out, { f with stage0 := s0, stage1 := s1, stage2 := s2, stage3 := s3,
                 z0 := s0 + v0, z1 := s1 + v1, z2 := s2 + v2, z3 := s3 + v3 })

/-- Same spec-side description with the saturation condition corrected to the
code's threshold `drive > 0.001` (the only change against `zdfSpecStep`). -/
def zdfSpecStepThresh (sat : ℚ → ℚ) (f : ZDFMoogLadderFilter) (x : ℚ) :
    ℚ × ZDFMoogLadderFilter :=
  let fb : ℚ := if f.drive > 0.001 then sat (f.stage3 * f.drive) else f.stage3
  let u0 := x - f.feedbackGain * fb
  let v0 := (u0 - f.z0) / (1 + f.G)
  let s0 := v0 + f.z0
  let v1 := (s0 - f.z1) / (1 + f.G)
  let s1 := v1 + f.z1
  let v2 := (s1 - f.z2) / (1 + f.G)
  let s2 := v2 + f.z2
  let v3 := (s2 - f.z3) / (1 + f.G)
  let s3 := v3 + f.z3
  let out : ℚ :=
    if f.mode = 0 then s3
    else if f.mode = 1 then s2 - s3
    else if f.mode = 2 then x - s3
    else s3
  (out, { f with stage0 := s0, stage1 := s1, stage2 := s2, stage3 := s3,
                 z0 := s0 + v0, z1 := s1 + v1, z2 := s2 + v2, z3 := s3 + v3 })

/-- The cubic soft-saturation curve `s(x) = x(1 − x²/3)` used by the repo's
nonlinear cores; it serves as a concrete stand-in for `tanhf` in closed
counterexamples (like `tanh`, it is odd, fixes `0`, and satisfies
`s x < x` for small positive `x`). -/
def cubicSat (x : ℚ) : ℚ := x * (1 - x ^ 2 / 3)

/-! ## Scalar nonlinear (dual-iteration) core (src/DEV/MoogLadderFilterScalar.cpp)

Direct Gen~ translation.  Single-precision floats become `ℚ`; the
sample-rate coefficients `expr1 = sqrtf(clamp(12.5/sr, 0.0001, 1))` and
`expr2 = -logf(expr1)` are computed through the stand-in parameters
`sqrtF`/`logF` (they are stored but never read by `process`). -/
structure MoogLadderFilterScalar where
  s1 : ℚ
  s2 : ℚ
  s3 : ℚ
  s4 : ℚ
  s5 : ℚ
  s6 : ℚ
  s7 : ℚ
  s8 : ℚ
  slim : ℚ
  previn : ℚ
  rc : ℚ
  fc : ℚ
  mode : ℤ
  sr : ℚ
  expr1 : ℚ
  expr2 : ℚ
  deriving DecidableEq, Repr

/-- All intermediate values of one `MoogLadderFilterScalar::process` call,
named exactly as the source locals.  `expr12`…`add33` are the first
(previous-history) pass, `expr34`…`add50` the second (corrective) pass,
`expr51`…`expr41` the six mode outputs. -/
structure ScalarInter where
  expr10 : ℚ
  rc_mod : ℚ
  expr3 : ℚ
  expr4 : ℚ
  expr5 : ℚ
  expr6 : ℚ
  expr7 : ℚ
  expr8 : ℚ
  rsub9 : ℚ
  expr12 : ℚ
  expr13 : ℚ
  expr14 : ℚ
  expr15 : ℚ
  add22 : ℚ
  expr23 : ℚ
  add27 : ℚ
  clamp28 : ℚ
  expr29 : ℚ
  expr30 : ℚ
  add31 : ℚ
  expr32 : ℚ
  add33 : ℚ
  expr34 : ℚ
  expr35 : ℚ
  expr36 : ℚ
  expr37 : ℚ
  add38 : ℚ
  expr39 : ℚ
  add40 : ℚ
  clamp42 : ℚ
  expr43 : ℚ
  expr44 : ℚ
  add48 : ℚ
  expr49 : ℚ
  add50 : ℚ
  expr51 : ℚ
  expr52 : ℚ
  expr53 : ℚ
  expr45 : ℚ
  expr41 : ℚ

namespace MoogLadderFilterScalar

/-- `MoogLadderFilterScalar::reset`. -/
def reset (st : MoogLadderFilterScalar) : MoogLadderFilterScalar :=
  { st with s1 := 0, s2 := 0, s3 := 0, s4 := 0, s5 := 0, s6 := 0, s7 := 0, s8 := 0,
            slim := 0, previn := 0, rc := 0, fc := 1, mode := 0 }

/-- `MoogLadderFilterScalar::setSampleRate`. -/
def setSampleRate (sqrtF logF : ℚ → ℚ) (st : MoogLadderFilterScalar) (sr_ : ℚ) :
    MoogLadderFilterScalar :=
  let e1 := sqrtF (clamp (12.5 / sr_) 0.0001 1)
  { st with sr := sr_, expr1 := e1, expr2 := -(logF e1) }

/-- `MoogLadderFilterScalar::setParams`: mode kept unvalidated, resonance
clamped to `[0,1]`, cutoff stored through `fixdenorm`. -/
def setParams (st : MoogLadderFilterScalar) (cutoffHz resonanceVal : ℚ)
    (modeSel : ℤ) : MoogLadderFilterScalar :=
  { st with mode := modeSel, rc := clamp resonanceVal 0 1, fc := fixdenorm cutoffHz }

/-- Every expression of `MoogLadderFilterScalar::process`, in source order. -/
def compute (st : MoogLadderFilterScalar) (in1 in3 in4 : ℚ) : ScalarInter :=
  let expr10 := in1 + 1e-11 * in4
  let rc_mod := st.rc + clamp ((1.05 * max in3 1e-5 - st.rc) / 4) (-1) 1
  let expr3 := st.fc * st.fc
  let expr4 := expr3 * (1 - rc_mod)
  let expr5 := expr3 + expr4 * expr4
  let expr6 := (1.25 + (-0.74375 + 0.3 * expr5) * expr5) * expr5
  let expr7 := rc_mod * (1.4 + (0.108 + (-0.164 - 0.069 * expr6) * expr6) * expr6)
  let expr8 := 0.18 + 0.25 * (expr7 * expr7)
  let rsub9 := 1 - expr6
  let expr12 := fixdenorm st.previn * expr8 - expr7 * st.s5
  let expr13 := clamp (0.062 * expr12 * expr12 + 0.993 * st.slim) (-1) 1
  let expr14 := expr12 * ((1 - expr13) + 0.5 * expr13 * expr13)
  let expr15 := expr14 * expr6 + rsub9 * st.s1
  let add22 := expr15 + st.s1 * 0.3
  let expr23 := add22 * expr6 + rsub9 * st.s2
  let add27 := expr23 + st.s2 * 0.3
  let clamp28 := clamp add27 (-1) 1
  let expr29 := clamp28 * (1 - 0.3333333 * clamp28 * clamp28)
  let expr30 := expr29 * expr6 + rsub9 * st.s3
  let add31 := expr30 + st.s3 * 0.3
  let expr32 := add31 * expr6 + rsub9 * st.s4
  let add33 := expr32 + st.s4 * 0.3
  let expr34 := expr10 * expr8 - expr7 * add33
  let expr35 := clamp (0.062 * expr34 * expr34 + 0.993 * expr13) (-1) 1
  let expr36 := expr34 * ((1 - expr35) + 0.5 * expr35 * expr35)
  let expr37 := expr36 * expr6 + rsub9 * expr15
  let add38 := expr37 + expr15 * 0.3
  let expr39 := add38 * expr6 + rsub9 * expr23
  let add40 := expr39 + expr23 * 0.3
  let clamp42 := clamp add40 (-1) 1
  let expr43 := clamp42 * (1 - 0.3333333 * clamp42 * clamp42)
  let expr44 := expr43 * expr6 + rsub9 * expr30
  let add48 := expr44 + expr30 * 0.3
  let expr49 := add48 * expr6 + rsub9 * expr32
  let add50 := expr49 + expr32 * 0.3
  let expr51 := 0.19 * (add50 + st.s8) + 0.57 * (add33 + st.s7) - 0.52 * st.s6
  let expr52 := (expr14 - 4 * (add38 + add48) + 6 * add40) + expr51
  let expr53 := 4 * (add40 + expr51) - 8 * add48
  let expr45 := (expr14 - 2 * add38) + add40
  let expr41 := 2 * (add38 - add40)
  { expr10 := expr10, rc_mod := rc_mod, expr3 := expr3, expr4 := expr4,
    expr5 := expr5, expr6 := expr6, expr7 := expr7, expr8 := expr8,
    rsub9 := rsub9, expr12 := expr12, expr13 := expr13, expr14 := expr14,
    expr15 := expr15, add22 := add22, expr23 := expr23, add27 := add27,
    clamp28 := clamp28, expr29 := expr29, expr30 := expr30, add31 := add31,
    expr32 := expr32, add33 := add33, expr34 := expr34, expr35 := expr35,
    expr36 := expr36, expr37 := expr37, add38 := add38, expr39 := expr39,
    add40 := add40, clamp42 := clamp42, expr43 := expr43, expr44 := expr44,
    add48 := add48, expr49 := expr49, add50 := add50, expr51 := expr51,
    expr52 := expr52, expr53 := expr53, expr45 := expr45, expr41 := expr41 }

/-- The mode switch of `MoogLadderFilterScalar::process` (`in2` is accepted
and unused, exactly as in the source). -/
def output (st : MoogLadderFilterScalar) (c : ScalarInter) : ℚ :=
  if st.mode = 0 then c.expr51
  else if st.mode = 1 then c.expr52
  else if st.mode = 2 then c.expr53
  else if st.mode = 3 then c.add40
  else if st.mode = 4 then c.expr45
  else if st.mode = 5 then c.expr41
  else c.add40

/-- The state commits of `MoogLadderFilterScalar::process`:
`previn = expr10; slim = expr35; s1 = expr15; s2 = expr39; s3 = expr44;
s4 = expr49; s5 = add50; s6 = expr51; s7 = add50; s8 = add33`. -/
def commit (st : MoogLadderFilterScalar) (c : ScalarInter) : MoogLadderFilterScalar :=
  { st with previn := c.expr10, slim := c.expr35,
            s1 := c.expr15, s2 := c.expr39, s3 := c.expr44, s4 := c.expr49,
            s5 := c.add50, s6 := c.expr51, s7 := c.add50, s8 := c.add33 }

/-- `MoogLadderFilterScalar::process(in1, in2, in3, in4)`. -/
def process (st : MoogLadderFilterScalar) (in1 in2 in3 in4 : ℚ) :
    ℚ × MoogLadderFilterScalar :=
  let c := compute st in1 in3 in4
  let _ := in2
  (output st c, commit st c)

end MoogLadderFilterScalar

/-! ## MSP nonlinear (dual-iteration) core (src/DEV/MSPMoogLadderFilter.cpp)

Double-precision translation of the same Gen~ algorithm.  All `double`
members become `ℚ`; the constructor's `sqrt`/`log` calls go through
stand-in parameters. -/
structure MSPMoogLadderFilter where
  previousInput : ℚ
  resonanceCoefficient : ℚ
  stage1State : ℚ
  stage2State : ℚ
  stage3State : ℚ
  stage4State : ℚ
  saturationState : ℚ
  stage4DelayedOutput : ℚ
  combinedOutput1 : ℚ
  combinedOutput2 : ℚ
  finalFilterOutput : ℚ
  cutoffFrequency : ℚ
  sampleRate : ℚ
  frequencyScaleFactor : ℚ
  frequencyWarpFactor : ℚ

/-- The intermediate values of one `MSPMoogLadderFilter::processSample`
call, named as the source locals (first pass `feedbackSignal`…
`stage4FinalOutput`, second pass `improvedFeedback`…
`updatedStage4_withState`, then the mode responses). -/
structure MSPInter where
  nextCutoffFrequency : ℚ
  resonanceScaling : ℚ
  feedbackStrength : ℚ
  inputScaling : ℚ
  inverseResonanceScaling : ℚ
  smoothedResonanceCoeff : ℚ
  noisyInput : ℚ
  feedbackSignal : ℚ
  currentSaturation : ℚ
  saturatedFeedback : ℚ
  stage1Input : ℚ
  stage2Output : ℚ
  stage3Output : ℚ
  stage4Output : ℚ
  stage4FinalOutput : ℚ
  improvedFeedback : ℚ
  updatedSaturation : ℚ
  updatedSaturatedFeedback : ℚ
  updatedStage1 : ℚ
  updatedStage1_withState : ℚ
  updatedStage2 : ℚ
  updatedStage2_withState : ℚ
  stageDifference : ℚ
  updatedStage3 : ℚ
  stageSum : ℚ
  updatedStage3_withState : ℚ
  updatedStage4 : ℚ
  updatedStage4_withState : ℚ
  lowpass24Response : ℚ
  complexResponse1 : ℚ
  complexResponse2 : ℚ

namespace MSPMoogLadderFilter

/-- The constructor `MSPMoogLadderFilter(double sampleRate)`: zero all state,
`cutoffFrequency = 1`, then `frequencyScaleFactor =
sqrt(min(1, max(0.0001, 12.5/sampleRate)))` and `frequencyWarpFactor =
-log(frequencyScaleFactor)` through the `sqrtF`/`logF` stand-ins. -/
def construct (sqrtF logF : ℚ → ℚ) (sampleRate : ℚ) : MSPMoogLadderFilter :=
  let maxFreqRatio := min 1 (max 0.0001 (12.5 / sampleRate))
  let fsf := sqrtF maxFreqRatio
  { previousInput := 0, resonanceCoefficient := 0,
    stage1State := 0, stage2State := 0, stage3State := 0, stage4State := 0,
    saturationState := 0, stage4DelayedOutput := 0,
    combinedOutput1 := 0, combinedOutput2 := 0, finalFilterOutput := 0,
    cutoffFrequency := 1, sampleRate := sampleRate,
    frequencyScaleFactor := fsf, frequencyWarpFactor := -(logF fsf) }

/-- Every expression of `MSPMoogLadderFilter::processSample`, in source
order. -/
def compute (st : MSPMoogLadderFilter)
    (inputSignal envelopeControl resonanceControl thermalNoise : ℚ) : MSPInter :=
  let scaledEnvelope := envelopeControl * 0.90193
  let offsetEnvelope := scaledEnvelope + 7.29
  let normalizedEnv := offsetEnvelope / 127
  let clampedEnvelope := stdClamp normalizedEnv 0 0.99
  let warpedFrequency := clampedEnvelope * st.frequencyWarpFactor
  let freqTerm1 := 0.031261316 * warpedFrequency
  let freqTerm2 := 0.00048274797 * warpedFrequency * warpedFrequency
  let freqTerm3 := 5.949053e-6 * warpedFrequency * warpedFrequency * warpedFrequency
  let frequencyPolynomial := 0.99999636 + freqTerm1 + freqTerm2 + freqTerm3
  let freqSquared := frequencyPolynomial * frequencyPolynomial
  let freqToThe4th := freqSquared * freqSquared
  let freqToThe8th := freqToThe4th * freqToThe4th
  let freqToThe16th := freqToThe8th * freqToThe8th
  let freqToThe32nd := freqToThe16th * freqToThe16th
  let scaledCutoffFreq := freqToThe32nd * st.frequencyScaleFactor
  let frequencyChange := scaledCutoffFreq - st.cutoffFrequency
  let smoothedFreqChange := frequencyChange / 2
  let newCutoffFrequency := st.cutoffFrequency + smoothedFreqChange
  let nextCutoffFrequency := fixDenormalNumbers newCutoffFrequency
  let cutoffSquared := nextCutoffFrequency * nextCutoffFrequency
  let resonanceCompensation := cutoffSquared * (1 - st.resonanceCoefficient)
  let compensatedResonance := cutoffSquared + resonanceCompensation * resonanceCompensation
  let resonanceTerm1 := -0.74375 + 0.3 * compensatedResonance
  let resonanceTerm2 := (1.25 + resonanceTerm1 * compensatedResonance) * compensatedResonance
  let resonanceScaling := resonanceTerm2
  let feedbackTerm1 := 0.108 + (-0.164 - 0.069 * resonanceScaling) * resonanceScaling
  let feedbackTerm2 := (1.4 + feedbackTerm1 * resonanceScaling) * resonanceScaling
  let feedbackStrength := st.resonanceCoefficient * feedbackTerm2
  let inputScaling := 0.18 + 0.25 * (feedbackStrength * feedbackStrength)
  let inverseResonanceScaling := 1 - resonanceScaling
  let targetResonance := 1.05 * min 1 (max 1e-5 resonanceControl)
  let resonanceChange := (targetResonance - st.resonanceCoefficient) / 4
  let nextResonanceCoeff := st.resonanceCoefficient + resonanceChange
  let smoothedResonanceCoeff := fixDenormalNumbers nextResonanceCoeff
  let noisyInput := inputSignal + 1e-11 * thermalNoise
  let cleanPreviousInput := fixDenormalNumbers st.previousInput
  let feedbackSignal := cleanPreviousInput * inputScaling - feedbackStrength * st.combinedOutput1
  let saturationInput := 0.062 * feedbackSignal * feedbackSignal + 0.993 * st.saturationState
  let currentSaturation := min 1 (max (-1) saturationInput)
  let saturationCurve := 1 - currentSaturation + 0.5 * currentSaturation * currentSaturation
  let saturatedFeedback := feedbackSignal * saturationCurve
  let stage1Input := saturatedFeedback * resonanceScaling + inverseResonanceScaling * st.stage1State
  let stage1Output_scaled := stage1Input * 0.3
  let stage1State_scaled := st.stage1State * 0.3
  let stage3State_scaled := st.stage3State * 0.3
  let stage4State_scaled := st.stage4State * 0.3
  let stage2Input := stage1Input + stage1State_scaled
  let stage2Output := stage2Input * resonanceScaling + inverseResonanceScaling * st.stage2State
  let stage2Output_scaled := stage2Output * 0.3
  let stage2State_scaled := st.stage2State * 0.3
  let stage3Input := stage2Output + stage2State_scaled
  let clampedStage3Input := stdClamp stage3Input (-1) 1
  let cubicSaturation := clampedStage3Input * (1 - 0.3333333 * clampedStage3Input * clampedStage3Input)
  let stage3Output := cubicSaturation * resonanceScaling + inverseResonanceScaling * st.stage3State
  let stage4Input := stage3Output + stage3State_scaled
  let stage4Output := stage4Input * resonanceScaling + inverseResonanceScaling * st.stage4State
  let stage4FinalOutput := stage4Output + stage4State_scaled
  let improvedFeedback := noisyInput * inputScaling - feedbackStrength * stage4FinalOutput
  let newSaturationInput := 0.062 * improvedFeedback * improvedFeedback + 0.993 * currentSaturation
  let updatedSaturation := min 1 (max (-1) newSaturationInput)
  let updatedSaturationCurve := 1 - updatedSaturation + 0.5 * updatedSaturation * updatedSaturation
  let updatedSaturatedFeedback := improvedFeedback * updatedSaturationCurve
  let updatedStage1 := updatedSaturatedFeedback * resonanceScaling + inverseResonanceScaling * stage1Input
  let updatedStage1_withState := updatedStage1 + stage1Output_scaled
  let updatedStage2 := updatedStage1_withState * resonanceScaling + inverseResonanceScaling * stage2Output
  let updatedStage2_withState := updatedStage2 + stage2Output_scaled
  let stageDifference := 2 * (updatedStage1_withState - updatedStage2_withState)
  let clampedUpdatedStage2 := stdClamp updatedStage2_withState (-1) 1
  let updatedCubicSat := clampedUpdatedStage2 * (1 - 0.3333333 * clampedUpdatedStage2 * clampedUpdatedStage2)
  let updatedStage3 := updatedCubicSat * resonanceScaling + inverseResonanceScaling * stage3Output
  let stageSum := saturatedFeedback + (-2) * updatedStage1_withState + updatedStage2_withState
  let stage4State_scaled_updated := stage4Output * 0.3
  let stage3State_scaled_updated := stage3Output * 0.3
  let updatedStage3_withState := updatedStage3 + stage3State_scaled_updated
  let updatedStage4 := updatedStage3_withState * resonanceScaling + inverseResonanceScaling * stage4Output
  let updatedStage4_withState := updatedStage4 + stage4State_scaled_updated
  let lowpass24Response := 0.19 * (updatedStage4_withState + st.stage4DelayedOutput) +
      0.57 * (stage4FinalOutput + st.combinedOutput1) - 0.52 * st.combinedOutput2
  let complexResponse1 := saturatedFeedback + (-4) * (updatedStage1_withState + updatedStage3_withState) +
      6 * updatedStage2_withState + lowpass24Response
  let complexResponse2 := 4 * (updatedStage2_withState + lowpass24Response) - 8 * updatedStage3_withState
  let _ := stage4State_scaled
  { nextCutoffFrequency := nextCutoffFrequency, resonanceScaling := resonanceScaling,
    feedbackStrength := feedbackStrength, inputScaling := inputScaling,
    inverseResonanceScaling := inverseResonanceScaling,
    smoothedResonanceCoeff := smoothedResonanceCoeff, noisyInput := noisyInput,
    feedbackSignal := feedbackSignal, currentSaturation := currentSaturation,
    saturatedFeedback := saturatedFeedback, stage1Input := stage1Input,
    stage2Output := stage2Output, stage3Output := stage3Output,
    stage4Output := stage4Output, stage4FinalOutput := stage4FinalOutput,
    improvedFeedback := improvedFeedback, updatedSaturation := updatedSaturation,
    updatedSaturatedFeedback := updatedSaturatedFeedback,
    updatedStage1 := updatedStage1, updatedStage1_withState := updatedStage1_withState,
    updatedStage2 := updatedStage2, updatedStage2_withState := updatedStage2_withState,
    stageDifference := stageDifference, updatedStage3 := updatedStage3,
    stageSum := stageSum, updatedStage3_withState := updatedStage3_withState,
    updatedStage4 := updatedStage4, updatedStage4_withState := updatedStage4_withState,
    lowpass24Response := lowpass24Response, complexResponse1 := complexResponse1,
    complexResponse2 := complexResponse2 }

/-- The mode switch of `MSPMoogLadderFilter::processSample`
(`switch (filterMode + 1)`, cases 1–6, default → lowpass24Response). -/
def output (c : MSPInter) (filterMode : ℤ) : ℚ :=
  if filterMode + 1 = 1 then c.lowpass24Response
  else if filterMode + 1 = 2 then c.complexResponse1
  else if filterMode + 1 = 3 then c.complexResponse2
  else if filterMode + 1 = 4 then c.updatedStage2_withState
  else if filterMode + 1 = 5 then c.stageSum
  else if filterMode + 1 = 6 then c.stageDifference
  else c.lowpass24Response

/-- The state commits of `MSPMoogLadderFilter::processSample` (every stored
value passes through `fixDenormalNumbers` except the two smoothed
parameters, which were already produced by it). -/
def commit (st : MSPMoogLadderFilter) (c : MSPInter) : MSPMoogLadderFilter :=
  { st with
    previousInput := fixDenormalNumbers c.noisyInput,
    cutoffFrequency := c.nextCutoffFrequency,
    resonanceCoefficient := c.smoothedResonanceCoeff,
    stage1State := fixDenormalNumbers c.updatedStage1,
    stage2State := fixDenormalNumbers c.updatedStage2,
    stage3State := fixDenormalNumbers c.updatedStage3,
    stage4State := fixDenormalNumbers c.updatedStage4,
    saturationState := fixDenormalNumbers c.updatedSaturation,
    stage4DelayedOutput := fixDenormalNumbers c.stage4FinalOutput,
    combinedOutput1 := fixDenormalNumbers c.updatedStage4_withState,
    combinedOutput2 := fixDenormalNumbers c.lowpass24Response }

/-- `MSPMoogLadderFilter::processSample`. -/
def processSample (st : MSPMoogLadderFilter)
    (inputSignal envelopeControl resonanceControl thermalNoise : ℚ)
    (filterMode : ℤ) : ℚ × MSPMoogLadderFilter :=
  let c := compute st inputSignal envelopeControl resonanceControl thermalNoise
  (output c filterMode, commit st c)

end MSPMoogLadderFilter

/-! ## NEON vector primitives (MoogLadderFilterBase.h, NeonMoogFilter.cpp)

A `float32x4_t` becomes `Fin 4 → ℚ`.  The hardware reciprocal estimate
`vrecpeq_f32` has no exact definition, so it is a parameter `est : ℚ → ℚ`
applied lanewise; `vrecpsq_f32(b, r)` is the documented ARM semantics
`2 − b·r`. -/
def F4 : Type := Fin 4 → ℚ

def vdupq_n_f32 (x : ℚ) : F4 := fun _ => x

def vaddq_f32 (a b : F4) : F4 := fun i => a i + b i

def vsubq_f32 (a b : F4) : F4 := fun i => a i - b i

def vmulq_f32 (a b : F4) : F4 := fun i => a i * b i

/-- `vmlaq_f32(a, b, c) = a + b*c` lanewise. -/
def vmlaq_f32 (a b c : F4) : F4 := fun i => a i + b i * c i

def vmaxq_f32 (a b : F4) : F4 := fun i => max (a i) (b i)

def vminq_f32 (a b : F4) : F4 := fun i => min (a i) (b i)

/-- `vrecpeq_f32` modelled by the estimate parameter applied lanewise. -/
def vrecpeq_f32 (est : ℚ → ℚ) (b : F4) : F4 := fun i => est (b i)

/-- `vrecpsq_f32(b, r) = 2 − b·r` lanewise (ARM reciprocal step). -/
def vrecpsq_f32 (b r : F4) : F4 := fun i => 2 - b i * r i

/-- `clamp_f32x4` from MoogLadderFilterBase.h:
`vminq_f32(vmaxq_f32(x, dup min), dup max)`. -/
def clamp_f32x4 (x : F4) (min_val max_val : ℚ) : F4 :=
  vminq_f32 (vmaxq_f32 x (vdupq_n_f32 min_val)) (vdupq_n_f32 max_val)

/-- `MoogLadderFilterSIMD::clamp_f32x4` from MoogLadderFilterSIMD.cpp:
`vmaxq_f32(vminq_f32(input, dup max), dup min)`. -/
def simd_clamp_f32x4 (input : F4) (minVal maxVal : ℚ) : F4 :=
  vmaxq_f32 (vminq_f32 input (vdupq_n_f32 maxVal)) (vdupq_n_f32 minVal)

/-- `vdivq_f32` from MoogLadderFilterBase.h: hardware reciprocal estimate,
ONE Newton-Raphson refinement, then `a × reciprocal`. -/
def vdivq_f32 (est : ℚ → ℚ) (a b : F4) : F4 :=
  let reciprocal := vrecpeq_f32 est b
  let reciprocal := vmulq_f32 (vrecpsq_f32 b reciprocal) reciprocal
  vmulq_f32 a reciprocal

/-- `neon_divide_f32` from NeonMoogFilter.cpp: hardware reciprocal estimate,
TWO Newton-Raphson refinements, then `num × recip`. -/
def neon_divide_f32 (est : ℚ → ℚ) (num den : F4) : F4 :=
  let recip := vrecpeq_f32 est den
  let recip := vmulq_f32 (vrecpsq_f32 den recip) recip
  let recip := vmulq_f32 (vrecpsq_f32 den recip) recip
  vmulq_f32 num recip

/-- One Newton-Raphson reciprocal refinement step for denominator `b`,
as the spec words it: `x ↦ x·(2 − b·x)`. -/
def nrStep (b x : ℚ) : ℚ := x * (2 - b * x)

/-- The idealized exact reciprocal estimate (an `est` for which the
Newton-Raphson refinement is a fixed point). -/
def exactRecip (b : ℚ) : ℚ := if b = 0 then 0 else b⁻¹

/-! ## SIMD nonlinear backend (src/DEV/MoogLadderFilterSIMD.cpp) -/

structure MoogLadderFilterSIMD where
  s1 : F4
  s2 : F4
  s3 : F4
  s4 : F4
  s5 : F4
  s6 : F4
  s7 : F4
  s8 : F4
  slim : F4
  previn : F4
  rc : F4
  fc : F4
  expr1 : F4
  expr2 : F4
  expr1_scalar : ℚ
  expr2_scalar : ℚ
  sr : ℚ
  mode : ℤ

namespace MoogLadderFilterSIMD

/-- `MoogLadderFilterSIMD::reset`. -/
def reset (st : MoogLadderFilterSIMD) : MoogLadderFilterSIMD :=
  let zero := vdupq_n_f32 0
  { st with s1 := zero, s2 := zero, s3 := zero, s4 := zero,
            s5 := zero, s6 := zero, s7 := zero, s8 := zero,
            slim := zero, previn := zero, rc := zero,
            fc := vdupq_n_f32 1, mode := 0 }

/-- `MoogLadderFilterSIMD::setSampleRate`. -/
def setSampleRate (sqrtF logF : ℚ → ℚ) (st : MoogLadderFilterSIMD) (sr_ : ℚ) :
    MoogLadderFilterSIMD :=
  let e1 := sqrtF (clamp (12.5 / sr_) 0.0001 1)
  { st with sr := sr_, expr1_scalar := e1, expr2_scalar := -(logF e1),
            expr1 := vdupq_n_f32 e1, expr2 := vdupq_n_f32 (-(logF e1)) }

/-- `MoogLadderFilterSIMD::setParams`. -/
def setParams (st : MoogLadderFilterSIMD) (cutoff resonance : F4) (modeSel : ℤ) :
    MoogLadderFilterSIMD :=
  { st with mode := modeSel, rc := simd_clamp_f32x4 resonance 0 1, fc := cutoff }

/-- `MoogLadderFilterSIMD::process`, translated intrinsic by intrinsic.
Note well: the method computes only the first pass of the Gen~ algorithm,
up to `expr30` (stage 3), returns `expr30` for every mode, and commits only
`previn`, `slim` (first-pass `expr13`) and `s1`–`s3`. -/
def process (est : ℚ → ℚ) (st : MoogLadderFilterSIMD) (in1 in2 in3 in4 : F4) :
    F4 × MoogLadderFilterSIMD :=
  let expr10 := vmlaq_f32 in1 (vdupq_n_f32 1e-11) in4
  let envShaped := vdivq_f32 est
    (vsubq_f32 (vmulq_f32 (vdupq_n_f32 1.05) (vmaxq_f32 in3 (vdupq_n_f32 1e-5))) st.rc)
    (vdupq_n_f32 4)
  let envShaped := simd_clamp_f32x4 envShaped (-1) 1
  let rc_mod := vaddq_f32 st.rc envShaped
  let expr3 := vmulq_f32 st.fc st.fc
  let expr4 := vmulq_f32 expr3 (vsubq_f32 (vdupq_n_f32 1) rc_mod)
  let expr5 := vaddq_f32 expr3 (vmulq_f32 expr4 expr4)
  let expr6 := vmulq_f32 (vaddq_f32 (vdupq_n_f32 1.25)
    (vmulq_f32 (vsubq_f32 (vdupq_n_f32 (-0.74375))
    (vmulq_f32 (vdupq_n_f32 (-0.3)) expr5)) expr5)) expr5
  let expr7 := vmulq_f32 rc_mod (vaddq_f32 (vdupq_n_f32 1.4)
    (vmulq_f32 (vaddq_f32 (vdupq_n_f32 0.108)
    (vmulq_f32 (vaddq_f32 (vdupq_n_f32 (-0.164))
    (vmulq_f32 (vdupq_n_f32 (-0.069)) expr6)) expr6)) expr6))
  let expr8 := vaddq_f32 (vdupq_n_f32 0.18)
    (vmulq_f32 (vdupq_n_f32 0.25) (vmulq_f32 expr7 expr7))
  let rsub9 := vsubq_f32 (vdupq_n_f32 1) expr6
  let expr12 := vsubq_f32 (vmulq_f32 st.previn expr8) (vmulq_f32 expr7 st.s5)
  let expr13 := simd_clamp_f32x4 (vaddq_f32
    (vmulq_f32 (vmulq_f32 (vdupq_n_f32 0.062) expr12) expr12)
    (vmulq_f32 (vdupq_n_f32 0.993) st.slim)) (-1) 1
  let expr14 := vmulq_f32 expr12 (vaddq_f32
    (vsubq_f32 (vdupq_n_f32 1) expr13)
    (vmulq_f32 (vmulq_f32 (vdupq_n_f32 0.5) expr13) expr13))
  let expr15 := vaddq_f32 (vmulq_f32 expr14 expr6) (vmulq_f32 rsub9 st.s1)
  let expr23 := vaddq_f32 (vmulq_f32
    (vaddq_f32 expr15 (vmulq_f32 st.s1 (vdupq_n_f32 0.3))) expr6)
    (vmulq_f32 rsub9 st.s2)
  let add27 := vaddq_f32 expr23 (vmulq_f32 st.s2 (vdupq_n_f32 0.3))
  let clamp28 := simd_clamp_f32x4 add27 (-1) 1
  let expr29 := vmulq_f32 clamp28 (vsubq_f32 (vdupq_n_f32 1)
    (vmulq_f32 (vmulq_f32 (vdupq_n_f32 0.3333333) clamp28) clamp28))
  let expr30 := vaddq_f32 (vmulq_f32 expr29 expr6) (vmulq_f32 rsub9 st.s3)
  let _ := in2
  let out : F4 := if st.mode = 0 then expr30 else expr30
  (out, { st with previn := expr10, slim := expr13,
                  s1 := expr15, s2 := expr23, s3 := expr30 })

end MoogLadderFilterSIMD

/-- The scalar computation one SIMD lane performs in
`MoogLadderFilterSIMD::process`, with the lane's state values passed
explicitly.  The division by 4 goes through the base header's `vdivq_f32`
(estimate `est1`, one Newton-Raphson step); everything else is the
first-pass prefix of the Gen~ algorithm ending at `expr30`. -/
def simdLane (est1 : ℚ → ℚ) (s1 s2 s3 s5 slim previn rc fc in1 in3 in4 : ℚ) :
    ℚ × (ℚ × ℚ × ℚ × ℚ × ℚ) :=
  let expr10 := in1 + 1e-11 * in4
  let envShaped := (1.05 * max in3 1e-5 - rc) * ((2 - 4 * est1 4) * est1 4)
  let envShaped := max (min envShaped 1) (-1)
  let rc_mod := rc + envShaped
  let expr3 := fc * fc
  let expr4 := expr3 * (1 - rc_mod)
  let expr5 := expr3 + expr4 * expr4
  let expr6 := (1.25 + (-0.74375 - -0.3 * expr5) * expr5) * expr5
  let expr7 := rc_mod * (1.4 + (0.108 + (-0.164 + -0.069 * expr6) * expr6) * expr6)
  let expr8 := 0.18 + 0.25 * (expr7 * expr7)
  let rsub9 := 1 - expr6
  let expr12 := previn * expr8 - expr7 * s5
  let expr13 := max (min (0.062 * expr12 * expr12 + 0.993 * slim) 1) (-1)
  let expr14 := expr12 * ((1 - expr13) + 0.5 * expr13 * expr13)
  let expr15 := expr14 * expr6 + rsub9 * s1
  let expr23 := (expr15 + s1 * 0.3) * expr6 + rsub9 * s2
  let add27 := expr23 + s2 * 0.3
  let clamp28 := max (min add27 1) (-1)
  let expr29 := clamp28 * (1 - 0.3333333 * clamp28 * clamp28)
  let expr30 := expr29 * expr6 + rsub9 * s3
  (expr30, (expr10, expr13, expr15, expr23, expr30))

/-! ## Fixed-point backend (src/DEV/MoogLadderFilterFixedPoint.cpp)

C `int` becomes `ℤ`: `x << 16` is `x * 65536`, the arithmetic right shift
`x >> 16` is floor division `Int.fdiv x 65536`, and C integer division
(truncation toward zero) is `Int.tdiv`. -/
structure MoogLadderFilterFixedPoint where
  sampleRate : ℤ
  alpha : ℤ
  feedbackAmount : ℤ
  fc : ℤ
  rc : ℤ
  prevIn : ℤ
  s0 : ℤ
  s1 : ℤ
  s2 : ℤ
  s3 : ℤ
  deriving DecidableEq, Repr

namespace MoogLadderFilterFixedPoint

/-- Arithmetic right shift by 16 (C `>> 16` on int). -/
def shr16 (x : ℤ) : ℤ := Int.fdiv x 65536

/-- `MoogLadderFilterFixedPoint::reset`. -/
def reset (st : MoogLadderFilterFixedPoint) : MoogLadderFilterFixedPoint :=
  { st with prevIn := 0, s0 := 0, s1 := 0, s2 := 0, s3 := 0 }

/-- The constructor: store the sample rate and `reset()`.  The coefficient
members keep their incoming (indeterminate-in-C++) values. -/
def construct (sampleRate : ℤ) (st : MoogLadderFilterFixedPoint) :
    MoogLadderFilterFixedPoint :=
  reset { st with sampleRate := sampleRate }

/-- `MoogLadderFilterFixedPoint::setCutoff`. -/
def setCutoff (st : MoogLadderFilterFixedPoint) (frequency : ℤ) :
    MoogLadderFilterFixedPoint :=
  let fc := clamp_int frequency 20 (Int.tdiv st.sampleRate 2)
  let normFreq := Int.tdiv (fc * 65536) st.sampleRate
  let g := shr16 (normFreq * normFreq)
  let alpha := Int.tdiv g (1 + g)
  { st with fc := fc, alpha := alpha, feedbackAmount := shr16 (alpha * alpha) }

/-- The `g` coefficient computed inside `setCutoff` (for stating the claim
about `alpha = g / (1 + g)`). -/
def gOf (st : MoogLadderFilterFixedPoint) (frequency : ℤ) : ℤ :=
  let fc := clamp_int frequency 20 (Int.tdiv st.sampleRate 2)
  let normFreq := Int.tdiv (fc * 65536) st.sampleRate
  shr16 (normFreq * normFreq)

/-- `MoogLadderFilterFixedPoint::setResonance`. -/
def setResonance (st : MoogLadderFilterFixedPoint) (resonance : ℤ) :
    MoogLadderFilterFixedPoint :=
  { st with rc := shr2 (clamp_int resonance 0 255) }
where
  /-- `>> 2` as arithmetic shift. -/
  shr2 (x : ℤ) : ℤ := Int.fdiv x 4

/-- `MoogLadderFilterFixedPoint::tanh_approx`. -/
def tanh_approx (x : ℤ) : ℤ :=
  let x := clamp_int x (-32768) 32767
  x - shr16 (x * x)

/-- `MoogLadderFilterFixedPoint::process`. -/
def process (st : MoogLadderFilterFixedPoint) (inp : ℤ) :
    ℤ × MoogLadderFilterFixedPoint :=
  let input := inp + 1
  let feedback := tanh_approx (st.rc * (st.s3 - input))
  let s1v := shr16 ((input - feedback) * st.alpha) + shr16 (st.feedbackAmount * st.s0)
  let s2v := shr16 (s1v * st.alpha) + shr16 (st.feedbackAmount * st.s1)
  let s3v := shr16 (s2v * st.alpha) + shr16 (st.feedbackAmount * st.s2)
  let s4v := shr16 (s3v * st.alpha) + shr16 (st.feedbackAmount * st.s3)
  (s4v, { st with s0 := s1v, s1 := s2v, s2 := s3v, s3 := s4v })

/-- Iterated processing of an input list, collecting the outputs. -/
def run (st : MoogLadderFilterFixedPoint) : List ℤ → List ℤ × MoogLadderFilterFixedPoint
  | [] => ([], st)
  | x :: xs =>
    let r := process st x
    let rest := run r.2 xs
    (r.1 :: rest.1, rest.2)

end MoogLadderFilterFixedPoint

/-- The body of `MoogLadderFilterFixedPoint::process` with the
anti-denormalization offset already applied by the caller: the feedback
term and all four ladder stages are computed from the given `input`.
`process st inp` below is shown equal to `processOffsetInput st (inp + 1)`. -/
def MoogLadderFilterFixedPoint.processOffsetInput (st : MoogLadderFilterFixedPoint)
    (input : ℤ) : ℤ × MoogLadderFilterFixedPoint :=
  let feedback := MoogLadderFilterFixedPoint.tanh_approx (st.rc * (st.s3 - input))
  let s1v := MoogLadderFilterFixedPoint.shr16 ((input - feedback) * st.alpha) +
    MoogLadderFilterFixedPoint.shr16 (st.feedbackAmount * st.s0)
  let s2v := MoogLadderFilterFixedPoint.shr16 (s1v * st.alpha) +
    MoogLadderFilterFixedPoint.shr16 (st.feedbackAmount * st.s1)
  let s3v := MoogLadderFilterFixedPoint.shr16 (s2v * st.alpha) +
    MoogLadderFilterFixedPoint.shr16 (st.feedbackAmount * st.s2)
  let s4v := MoogLadderFilterFixedPoint.shr16 (s3v * st.alpha) +
    MoogLadderFilterFixedPoint.shr16 (st.feedbackAmount * st.s3)
  (s4v, { st with s0 := s1v, s1 := s2v, s2 := s3v, s3 := s4v })

/-! ## Concrete states used by closed statements -/

/-- The scalar core right after `reset()` (an arbitrary pre-reset state,
then `reset`). -/
def stS0 : MoogLadderFilterScalar :=
  MoogLadderFilterScalar.reset ⟨0, 0, 0, 0, 0, 0, 0, 0, 0, 0, 0, 0, 0, 0, 0, 0⟩

def zeroF4 : F4 := vdupq_n_f32 0

def oneF4 : F4 := vdupq_n_f32 1

/-- The SIMD backend right after `reset()` (sample rate 44100 stored,
coefficient vectors zeroed as a stand-in for the constructor). -/
def simdSt0 : MoogLadderFilterSIMD :=
  MoogLadderFilterSIMD.reset
    ⟨zeroF4, zeroF4, zeroF4, zeroF4, zeroF4, zeroF4, zeroF4, zeroF4,
     zeroF4, zeroF4, zeroF4, zeroF4, zeroF4, zeroF4, 0, 0, 44100, 0⟩

/-- An all-zero pre-constructor fixed-point state. -/
def fpBase : MoogLadderFilterFixedPoint := ⟨0, 0, 0, 0, 0, 0, 0, 0, 0, 0⟩

/-- A ZDF filter reachable through the setters (constructed at 44100 Hz with
the identity stand-in for `x ↦ tan (π x)`, then `setDrive(0.001)`), whose
fourth-stage output has then been driven to 1 by prior audio. -/
def zfC1 : ZDFMoogLadderFilter :=
  { (ZDFMoogLadderFilter.construct (fun r => r) 44100 0 0 0).setDrive (1/1000) with
    stage3 := 1 }

/-! ## Helper lemmas on the fixed-point backend -/

namespace MoogLadderFilterFixedPoint

lemma gOf_nonneg (st : MoogLadderFilterFixedPoint) (frequency : ℤ) :
    0 ≤ gOf st frequency := by
  unfold gOf shr16
  exact Int.fdiv_nonneg (mul_self_nonneg _) (by norm_num)

lemma setCutoff_alpha (st : MoogLadderFilterFixedPoint) (frequency : ℤ) :
    (st.setCutoff frequency).alpha = 0 := by
  show Int.tdiv (gOf st frequency) (1 + gOf st frequency) = 0
  exact Int.tdiv_eq_zero_of_lt (gOf_nonneg st frequency) (by linarith [gOf_nonneg st frequency])

lemma setCutoff_feedbackAmount (st : MoogLadderFilterFixedPoint) (frequency : ℤ) :
    (st.setCutoff frequency).feedbackAmount = 0 := by
  show shr16 ((st.setCutoff frequency).alpha * (st.setCutoff frequency).alpha) = 0
  rw [setCutoff_alpha]
  simp [shr16, Int.zero_fdiv]

/-- With zero coefficients and zero stage state, one `process` call returns
0 and leaves the stage state at zero. -/
lemma process_zero (st : MoogLadderFilterFixedPoint) (x : ℤ)
    (ha : st.alpha = 0) (hf : st.feedbackAmount = 0)
    (h0 : st.s0 = 0) (h1 : st.s1 = 0) (h2 : st.s2 = 0) (h3 : st.s3 = 0) :
    (st.process x).1 = 0 ∧ (st.process x).2.s0 = 0 ∧ (st.process x).2.s1 = 0 ∧
      (st.process x).2.s2 = 0 ∧ (st.process x).2.s3 = 0 ∧
      (st.process x).2.alpha = 0 ∧ (st.process x).2.feedbackAmount = 0 := by
  simp [process, ha, hf, h0, h1, h2, h3, shr16, Int.zero_fdiv]

/-- With zero coefficients and zero stage state, every output of `run` is 0. -/
lemma run_zero (ins : List ℤ) :
    ∀ st : MoogLadderFilterFixedPoint, st.alpha = 0 → st.feedbackAmount = 0 →
      st.s0 = 0 → st.s1 = 0 → st.s2 = 0 → st.s3 = 0 →
      (st.run ins).1 = List.replicate ins.length 0 := by
  induction ins with
  | nil => intro st _ _ _ _ _ _; simp [run]
  | cons x xs ih =>
    intro st ha hf h0 h1 h2 h3
    have h := process_zero st x ha hf h0 h1 h2 h3
    simp only [run, List.length_cons, List.replicate_succ, List.cons.injEq]
    exact ⟨h.1, ih _ h.2.2.2.2.2.1 h.2.2.2.2.2.2 h.2.1 h.2.2.1 h.2.2.2.1 h.2.2.2.2.1⟩

end MoogLadderFilterFixedPoint

/-! ## C10 -/

/-- **C10**: In the fixed-point backend, for every frequency argument and
every positive sample rate, `setCutoff` computes `alpha = g / (1 + g)` in
integer arithmetic with `0 ≤ g < 1 + g`, so the stored `alpha` and the
derived `feedbackAmount` are always 0; consequently, starting from the
reset state, `process` returns 0 for every input sequence. -/
theorem C10_fixedpoint_dead_filter (st0 : MoogLadderFilterFixedPoint)
    (sr frequency resonance : ℤ) (ins : List ℤ) (hsr : 0 < sr) :
    let f := ((MoogLadderFilterFixedPoint.construct sr st0).setCutoff
      frequency).setResonance resonance
    0 ≤ MoogLadderFilterFixedPoint.gOf (MoogLadderFilterFixedPoint.construct sr st0) frequency ∧
    MoogLadderFilterFixedPoint.gOf (MoogLadderFilterFixedPoint.construct sr st0) frequency <
      1 + MoogLadderFilterFixedPoint.gOf (MoogLadderFilterFixedPoint.construct sr st0) frequency ∧
    f.alpha = 0 ∧ f.feedbackAmount = 0 ∧
    (f.run ins).1 = List.replicate ins.length 0 := by
  intro f
  have hg := MoogLadderFilterFixedPoint.gOf_nonneg
    (MoogLadderFilterFixedPoint.construct sr st0) frequency
  have ha : f.alpha = 0 := MoogLadderFilterFixedPoint.setCutoff_alpha _ frequency
  have hf : f.feedbackAmount = 0 :=
    MoogLadderFilterFixedPoint.setCutoff_feedbackAmount _ frequency
  refine ⟨hg, by linarith, ha, hf, ?_⟩
  exact MoogLadderFilterFixedPoint.run_zero ins f ha hf rfl rfl rfl rfl

/-- Witness for C10 at sample rate 44100, cutoff 1000 Hz, resonance 200,
inputs `[5, -7, 123456]`, starting from an arbitrary nonzero pre-constructor
state. -/
theorem C10_fixedpoint_dead_filter_witness :
    ((((MoogLadderFilterFixedPoint.construct 44100
        ⟨7, 7, 7, 7, 7, 7, 7, 7, 7, 7⟩).setCutoff 1000).setResonance 200).run
      [5, -7, 123456]).1 = List.replicate 3 0 :=
  (C10_fixedpoint_dead_filter ⟨7, 7, 7, 7, 7, 7, 7, 7, 7, 7⟩ 44100 1000 200
    [5, -7, 123456] (by norm_num)).2.2.2.2

/-! ## C9 -/

/-- **C9** (amended): the fixed-point backend's `process(in)` adds the
constant integer offset +1 to the input before any filtering — the feedback
term and all four ladder stages are computed from `in + 1` (first conjunct:
`process st inp` is exactly the offset-free body applied to `inp + 1`).
However, because the derived `alpha`/`feedbackAmount` coefficients are
always 0, the recursion nevertheless settles at the exact zero state and
every output is 0, carrying no bias (second conjunct). -/
theorem C9_fixed_offset_input (st st0 : MoogLadderFilterFixedPoint)
    (sr frequency resonance inp : ℤ) (hsr : 0 < sr) :
    st.process inp = st.processOffsetInput (inp + 1) ∧
    (((MoogLadderFilterFixedPoint.construct sr st0).setCutoff
        frequency).setResonance resonance).process inp =
      (0, ((MoogLadderFilterFixedPoint.construct sr st0).setCutoff
        frequency).setResonance resonance) := by
  refine ⟨rfl, ?_⟩
  have key : ∀ g : MoogLadderFilterFixedPoint, g.alpha = 0 → g.feedbackAmount = 0 →
      g.s0 = 0 → g.s1 = 0 → g.s2 = 0 → g.s3 = 0 → g.process inp = (0, g) := by
    rintro ⟨gsr, galpha, gfb, gfc, grc, gprev, gs0, gs1, gs2, gs3⟩ ha hfb h0 h1 h2 h3
    subst ha; subst hfb; subst h0; subst h1; subst h2; subst h3
    simp [MoogLadderFilterFixedPoint.process, MoogLadderFilterFixedPoint.shr16,
      Int.zero_fdiv]
  exact key _ (MoogLadderFilterFixedPoint.setCutoff_alpha _ frequency)
    (MoogLadderFilterFixedPoint.setCutoff_feedbackAmount _ frequency) rfl rfl rfl rfl

/-- Witness for C9 at sample rate 44100, cutoff 1000, resonance 255,
input 0. -/
theorem C9_fixed_offset_input_witness :
    (((MoogLadderFilterFixedPoint.construct 44100 fpBase).setCutoff
        1000).setResonance 255).process 0 =
      (0, ((MoogLadderFilterFixedPoint.construct 44100 fpBase).setCutoff
        1000).setResonance 255) :=
  (C9_fixed_offset_input fpBase fpBase 44100 1000 255 0 (by norm_num)).2

/-- Counterexample to C9 as stated: after configuring the fixed-point
backend (sample rate 44100, cutoff 1000, maximal resonance 255), a `process`
call from the reset state returns output 0 and leaves the filter exactly in
the same all-zero state, for input 0 and input 5 alike — so, despite the +1
offset, the recursion *does* settle at an exact zero state and the outputs
carry no bias. -/
theorem C9_zero_settling_cex :
    (((MoogLadderFilterFixedPoint.construct 44100 fpBase).setCutoff
        1000).setResonance 255).process 0 =
      (0, ((MoogLadderFilterFixedPoint.construct 44100 fpBase).setCutoff
        1000).setResonance 255) ∧
    (((MoogLadderFilterFixedPoint.construct 44100 fpBase).setCutoff
        1000).setResonance 255).process 5 =
      (0, ((MoogLadderFilterFixedPoint.construct 44100 fpBase).setCutoff
        1000).setResonance 255) := by
  decide

/-! ## C6 -/

/-- **C6** (amended): `setCutoff` is idempotent in the ZDF controller and in
the fixed-point controller; `setCutoff(-100) ≡ setCutoff(20)` and
`setCutoff(sampleRate) ≡ setCutoff(0.45·sampleRate)` hold in the ZDF
controller, whose clamp range is `[20, 0.45·sampleRate]`; the fixed-point
controller instead clamps to `[20, sampleRate/2]` (conjunct 5), so there
`setCutoff(sampleRate)` stores `fc = sampleRate/2`, although its derived
`alpha`/`feedbackAmount` coefficients (identically 0) coincide for any two
frequencies (conjunct 6). -/
theorem C6_setCutoff_clamp_amended :
    (∀ (tanPi : ℚ → ℚ) (f : ZDFMoogLadderFilter) (c : ℚ),
      (f.setCutoff tanPi c).setCutoff tanPi c = f.setCutoff tanPi c) ∧
    (∀ (tanPi : ℚ → ℚ) (f : ZDFMoogLadderFilter), 20 ≤ f.sampleRate * 0.45 →
      f.setCutoff tanPi (-100) = f.setCutoff tanPi 20) ∧
    (∀ (tanPi : ℚ → ℚ) (f : ZDFMoogLadderFilter),
      0 < f.sampleRate → 20 ≤ f.sampleRate * 0.45 →
      f.setCutoff tanPi f.sampleRate = f.setCutoff tanPi (f.sampleRate * 0.45)) ∧
    (∀ (st : MoogLadderFilterFixedPoint) (freq : ℤ),
      (st.setCutoff freq).setCutoff freq = st.setCutoff freq) ∧
    (∀ (st : MoogLadderFilterFixedPoint) (freq : ℤ),
      (st.setCutoff freq).fc = clamp_int freq 20 (Int.tdiv st.sampleRate 2)) ∧
    (∀ (st : MoogLadderFilterFixedPoint) (freq freq' : ℤ),
      (st.setCutoff freq).alpha = (st.setCutoff freq').alpha ∧
      (st.setCutoff freq).feedbackAmount = (st.setCutoff freq').feedbackAmount) := by
  refine ⟨fun tanPi f c => rfl, ?_, ?_, fun st freq => rfl, fun st freq => rfl, ?_⟩
  · intro tanPi f h
    have hc : clamp_float (-100) 20 (f.sampleRate * 0.45) =
        clamp_float 20 20 (f.sampleRate * 0.45) := by
      unfold clamp_float
      rw [if_pos (by norm_num), if_neg (by norm_num), if_neg (by linarith)]
    simp only [ZDFMoogLadderFilter.setCutoff, hc]
  · intro tanPi f h0 h
    have hsr : (400 : ℚ) / 9 ≤ f.sampleRate := by nlinarith
    have hc : clamp_float f.sampleRate 20 (f.sampleRate * 0.45) =
        clamp_float (f.sampleRate * 0.45) 20 (f.sampleRate * 0.45) := by
      unfold clamp_float
      rw [if_neg (by linarith), if_pos (by nlinarith), if_neg (by linarith),
        if_neg (by linarith)]
    simp only [ZDFMoogLadderFilter.setCutoff, hc]
  · intro st freq freq'
    rw [MoogLadderFilterFixedPoint.setCutoff_alpha, MoogLadderFilterFixedPoint.setCutoff_alpha,
      MoogLadderFilterFixedPoint.setCutoff_feedbackAmount,
      MoogLadderFilterFixedPoint.setCutoff_feedbackAmount]
    exact ⟨rfl, rfl⟩

/-- Witness for C6 at the ZDF filter `zfC1` (sample rate 44100, so
`0.45·sampleRate = 19845 ≥ 20`): `setCutoff(-100)` equals `setCutoff(20)`
and `setCutoff(44100)` equals `setCutoff(19845)` there. -/
theorem C6_setCutoff_clamp_amended_witness :
    zfC1.setCutoff (fun r => r) (-100) = zfC1.setCutoff (fun r => r) 20 ∧
    zfC1.setCutoff (fun r => r) zfC1.sampleRate =
      zfC1.setCutoff (fun r => r) (zfC1.sampleRate * 0.45) :=
  ⟨C6_setCutoff_clamp_amended.2.1 (fun r => r) zfC1 (by norm_num [zfC1,
      ZDFMoogLadderFilter.construct, ZDFMoogLadderFilter.setDrive,
      ZDFMoogLadderFilter.setResonance, ZDFMoogLadderFilter.setCutoff,
      ZDFMoogLadderFilter.reset, clamp_float]),
   C6_setCutoff_clamp_amended.2.2.1 (fun r => r) zfC1 (by norm_num [zfC1,
      ZDFMoogLadderFilter.construct, ZDFMoogLadderFilter.setDrive,
      ZDFMoogLadderFilter.setResonance, ZDFMoogLadderFilter.setCutoff,
      ZDFMoogLadderFilter.reset, clamp_float]) (by norm_num [zfC1,
      ZDFMoogLadderFilter.construct, ZDFMoogLadderFilter.setDrive,
      ZDFMoogLadderFilter.setResonance, ZDFMoogLadderFilter.setCutoff,
      ZDFMoogLadderFilter.reset, clamp_float])⟩

/-- Counterexample to C6 as stated: in the fixed-point controller at sample
rate 44100, `setCutoff(sampleRate)` stores `fc = 22050 = sampleRate/2`,
while `setCutoff(0.45·sampleRate) = setCutoff(19845)` stores `fc = 19845`:
the two calls do not leave the same stored cutoff, and 22050 lies outside
the claimed clamp range `[20, 0.45·sampleRate]`. -/
theorem C6_fixed_clamp_cex :
    ((MoogLadderFilterFixedPoint.construct 44100 fpBase).setCutoff 44100).fc = 22050 ∧
    ((MoogLadderFilterFixedPoint.construct 44100 fpBase).setCutoff 19845).fc = 19845 ∧
    ((MoogLadderFilterFixedPoint.construct 44100 fpBase).setCutoff 44100).fc ≠
      ((MoogLadderFilterFixedPoint.construct 44100 fpBase).setCutoff 19845).fc ∧
    ¬((MoogLadderFilterFixedPoint.construct 44100 fpBase).setCutoff 44100).fc ≤ 19845 := by
  decide

/-! ## C1 -/

/-- **C1** (amended): one call of the ZDF core's `process(x)`, from any
filter state and any stand-in for `tanhf`, computes exactly the spec's
per-sample algorithm — `u = x − feedbackGain·fb` with `fb = stage[3]`
soft-saturated when `drive > 0.001` (the code's threshold; the claim said
`drive > 0`), the four TPT stage updates `v = (u − z)/(1+G)`,
`stage = v + z`, `z = stage + v`, `u = stage`, and the mode-selected output
(`LP24 → stage[3]`, `BP12 → stage[2] − stage[3]`, `HP24 → x − stage[3]`,
unknown mode → `stage[3]`). -/
theorem C1_zdf_process_spec (tanhF : ℚ → ℚ) (f : ZDFMoogLadderFilter) (x : ℚ) :
    ZDFMoogLadderFilter.process tanhF f x = zdfSpecStepThresh tanhF f x := rfl

/-- Counterexample to C1 as stated: at the setter-reachable parameter state
`zfC1` (`drive = 0.001`, which is `> 0` but not `> 0.001`) with
`stage[3] = 1`, the code's `process` output differs from the spec formula
that saturates whenever `drive > 0` (using the repo's own cubic saturation
curve as the stand-in for `tanhf`). -/
theorem C1_zdf_drive_threshold_cex :
    (ZDFMoogLadderFilter.process cubicSat zfC1 0).1 ≠ (zdfSpecStep cubicSat zfC1 0).1 := by
  norm_num [ZDFMoogLadderFilter.process, zdfSpecStep, ZDFMoogLadderFilter.tptStage,
    zfC1, ZDFMoogLadderFilter.construct, ZDFMoogLadderFilter.setDrive,
    ZDFMoogLadderFilter.setResonance, ZDFMoogLadderFilter.setCutoff,
    ZDFMoogLadderFilter.reset, clamp_float, cubicSat]

/-! ## C7 -/

/-- **C7** (amended): an invalid `setMode` value is ignored by the ZDF
family — the filter is unchanged and subsequent `process()` calls use the
prior mode — whereas the nonlinear family keeps the invalid mode value
(`setParams` stores it unvalidated) and substitutes a default combination
at output-selection time: the scalar translation substitutes `add40`, the
same value its LP18 mode (mode 3) returns (the claim called the default
LP24-equivalent; LP24 is `expr51`), while the MSP translation substitutes
`lowpass24Response` (there the default is indeed LP24). -/
theorem C7_invalid_mode_asymmetry :
    (∀ (f : ZDFMoogLadderFilter) (m : ℤ), ¬(0 ≤ m ∧ m ≤ 2) →
      f.setMode m = f) ∧
    (∀ (tanhF : ℚ → ℚ) (f : ZDFMoogLadderFilter) (m : ℤ) (x : ℚ),
      ¬(0 ≤ m ∧ m ≤ 2) →
      ZDFMoogLadderFilter.process tanhF (f.setMode m) x =
        ZDFMoogLadderFilter.process tanhF f x) ∧
    (∀ (st : MoogLadderFilterScalar) (c r : ℚ) (m : ℤ),
      (st.setParams c r m).mode = m) ∧
    (∀ (st : MoogLadderFilterScalar) (c : ScalarInter),
      st.mode < 0 ∨ 5 < st.mode →
      MoogLadderFilterScalar.output st c = c.add40 ∧
      MoogLadderFilterScalar.output { st with mode := 3 } c = c.add40) ∧
    (∀ (c : MSPInter) (m : ℤ), m < 0 ∨ 5 < m →
      MSPMoogLadderFilter.output c m = c.lowpass24Response) := by
  refine ⟨?_, ?_, fun st c r m => rfl, ?_, ?_⟩
  · intro f m h
    simp only [ZDFMoogLadderFilter.setMode, if_neg h]
  · intro tanhF f m x h
    simp only [ZDFMoogLadderFilter.setMode, if_neg h]
  · intro st c h
    unfold MoogLadderFilterScalar.output
    rw [if_neg (by omega), if_neg (by omega), if_neg (by omega), if_neg (by omega),
      if_neg (by omega), if_neg (by omega)]
    exact ⟨rfl, rfl⟩
  · intro c m h
    unfold MSPMoogLadderFilter.output
    rw [if_neg (by omega), if_neg (by omega), if_neg (by omega), if_neg (by omega),
      if_neg (by omega), if_neg (by omega)]

/-- Witness for C7 at mode 99: the ZDF filter `zfC1` is unchanged by
`setMode(99)`, the scalar core keeps 99 in its mode field, its output
selection falls back to `add40`, and the MSP selection falls back to
`lowpass24Response`. -/
theorem C7_invalid_mode_asymmetry_witness :
    zfC1.setMode 99 = zfC1 ∧
    (stS0.setParams 1 0 99).mode = 99 ∧
    MoogLadderFilterScalar.output (stS0.setParams 1 0 99)
      (MoogLadderFilterScalar.compute stS0 1 1 0) =
      (MoogLadderFilterScalar.compute stS0 1 1 0).add40 ∧
    MSPMoogLadderFilter.output
      ⟨1, 1, 1, 1, 1, 1, 1, 1, 1, 1, 1, 1, 1, 1, 1, 1, 1, 1, 1, 1, 1, 1,
       1, 1, 1, 1, 1, 1, 1, 1, 1⟩ 99 =
      (⟨1, 1, 1, 1, 1, 1, 1, 1, 1, 1, 1, 1, 1, 1, 1, 1, 1, 1, 1, 1, 1, 1,
       1, 1, 1, 1, 1, 1, 1, 1, 1⟩ : MSPInter).lowpass24Response :=
  ⟨C7_invalid_mode_asymmetry.1 zfC1 99 (by decide),
   C7_invalid_mode_asymmetry.2.2.1 stS0 1 0 99,
   (C7_invalid_mode_asymmetry.2.2.2.1 (stS0.setParams 1 0 99)
     (MoogLadderFilterScalar.compute stS0 1 1 0) (by decide)).1,
   C7_invalid_mode_asymmetry.2.2.2.2
     ⟨1, 1, 1, 1, 1, 1, 1, 1, 1, 1, 1, 1, 1, 1, 1, 1, 1, 1, 1, 1, 1, 1,
      1, 1, 1, 1, 1, 1, 1, 1, 1⟩ 99 (by norm_num)⟩

/-- Counterexample to C7 as stated: in the scalar nonlinear core, with the
post-reset state configured by `setParams(1, 0, mode)` and inputs
`(1, 0, 1, 0)`, the invalid mode 99 produces exactly the LP18 (mode 3)
output, and that value differs from the LP24 (mode 0) output — so the
substituted default is not the LP24-equivalent combination. -/
theorem C7_scalar_default_not_lp24_cex :
    (MoogLadderFilterScalar.process (stS0.setParams 1 0 99) 1 0 1 0).1 =
      (MoogLadderFilterScalar.process (stS0.setParams 1 0 3) 1 0 1 0).1 ∧
    (MoogLadderFilterScalar.process (stS0.setParams 1 0 99) 1 0 1 0).1 ≠
      (MoogLadderFilterScalar.process (stS0.setParams 1 0 0) 1 0 1 0).1 := by
  constructor
  · rfl
  · norm_num [MoogLadderFilterScalar.process, MoogLadderFilterScalar.output,
      MoogLadderFilterScalar.compute, MoogLadderFilterScalar.setParams,
      stS0, MoogLadderFilterScalar.reset, clamp, fixdenorm, min_def, max_def]

/-! ## C8 -/

/-- **C8** (amended): vector-lane division in the vector backends is always
computed as the numerator times a reciprocal obtained from the hardware
reciprocal estimate refined by Newton-Raphson steps `x ↦ x·(2 − b·x)`,
never by a native divide — but the iteration count differs:
`neon_divide_f32` (NeonMoogFilter.cpp) refines with exactly two steps,
while the base header's `vdivq_f32` (used by the SIMD Huovilainen backend)
refines with exactly one. -/
theorem C8_newton_raphson_division (est : ℚ → ℚ) (num den a b : F4) :
    neon_divide_f32 est num den =
      vmulq_f32 num (fun i => nrStep (den i) (nrStep (den i) (est (den i)))) ∧
    vdivq_f32 est a b = vmulq_f32 a (fun i => nrStep (b i) (est (b i))) := by
  constructor
  · funext i
    simp only [neon_divide_f32, vmulq_f32, vrecpsq_f32, vrecpeq_f32, nrStep]
    ring
  · funext i
    simp only [vdivq_f32, vmulq_f32, vrecpsq_f32, vrecpeq_f32, nrStep]
    ring

/-- Counterexample to C8 as stated: with the estimate returning 1/2 and
numerator = denominator = 1, the base header's `vdivq_f32` yields 3/4 in
lane 0 (one refinement), not the 15/16 that exactly two Newton-Raphson
refinements produce — so not every vector-lane division uses two
iterations. -/
theorem C8_single_refinement_cex :
    (vdivq_f32 (fun _ => 1/2) oneF4 oneF4) 0 = 3/4 ∧
    (neon_divide_f32 (fun _ => 1/2) oneF4 oneF4) 0 = 15/16 ∧
    (vdivq_f32 (fun _ => 1/2) oneF4 oneF4) 0 ≠
      oneF4 0 * nrStep (oneF4 0) (nrStep (oneF4 0) ((1 : ℚ)/2)) := by
  refine ⟨?_, ?_, ?_⟩ <;>
    norm_num [vdivq_f32, neon_divide_f32, vmulq_f32, vrecpsq_f32, vrecpeq_f32,
      oneF4, vdupq_n_f32, nrStep]

/-! ## C3 -/

/-- **C3** (amended): each per-sample call of the nonlinear cores runs
exactly two passes: the first pass's feedback term is formed from the
state saved on the previous sample (the stored previous input — through
`fixdenorm`/`fixDenormalNumbers` — and the stored stage-4 output history),
the second pass recomputes the feedback from the current thermal-noise-
injected input together with the first pass's provisional stage-4 output.
The stage values committed for the next sample are the second pass's
corrected values in the MSP core (all four stages), but in the scalar
translation only stages 2–4: its first stage commits the first pass's
provisional value `expr15` (the second pass's stage-1 value is `expr37`). -/
theorem C3_dual_iteration_structure (st : MoogLadderFilterScalar)
    (in1 in2 in3 in4 : ℚ) (mst : MSPMoogLadderFilter) (a e r n : ℚ) (m : ℤ) :
    (MoogLadderFilterScalar.compute st in1 in3 in4).expr12 =
      fixdenorm st.previn * (MoogLadderFilterScalar.compute st in1 in3 in4).expr8 -
        (MoogLadderFilterScalar.compute st in1 in3 in4).expr7 * st.s5 ∧
    (MoogLadderFilterScalar.compute st in1 in3 in4).expr10 = in1 + 1e-11 * in4 ∧
    (MoogLadderFilterScalar.compute st in1 in3 in4).expr34 =
      (MoogLadderFilterScalar.compute st in1 in3 in4).expr10 *
        (MoogLadderFilterScalar.compute st in1 in3 in4).expr8 -
      (MoogLadderFilterScalar.compute st in1 in3 in4).expr7 *
        (MoogLadderFilterScalar.compute st in1 in3 in4).add33 ∧
    (MoogLadderFilterScalar.process st in1 in2 in3 in4).2.previn =
      (MoogLadderFilterScalar.compute st in1 in3 in4).expr10 ∧
    (MoogLadderFilterScalar.process st in1 in2 in3 in4).2.s1 =
      (MoogLadderFilterScalar.compute st in1 in3 in4).expr15 ∧
    (MoogLadderFilterScalar.process st in1 in2 in3 in4).2.s2 =
      (MoogLadderFilterScalar.compute st in1 in3 in4).expr39 ∧
    (MoogLadderFilterScalar.process st in1 in2 in3 in4).2.s3 =
      (MoogLadderFilterScalar.compute st in1 in3 in4).expr44 ∧
    (MoogLadderFilterScalar.process st in1 in2 in3 in4).2.s4 =
      (MoogLadderFilterScalar.compute st in1 in3 in4).expr49 ∧
    (MSPMoogLadderFilter.compute mst a e r n).noisyInput = a + 1e-11 * n ∧
    (MSPMoogLadderFilter.compute mst a e r n).feedbackSignal =
      fixDenormalNumbers mst.previousInput *
        (MSPMoogLadderFilter.compute mst a e r n).inputScaling -
      (MSPMoogLadderFilter.compute mst a e r n).feedbackStrength * mst.combinedOutput1 ∧
    (MSPMoogLadderFilter.compute mst a e r n).improvedFeedback =
      (MSPMoogLadderFilter.compute mst a e r n).noisyInput *
        (MSPMoogLadderFilter.compute mst a e r n).inputScaling -
      (MSPMoogLadderFilter.compute mst a e r n).feedbackStrength *
        (MSPMoogLadderFilter.compute mst a e r n).stage4FinalOutput ∧
    (MSPMoogLadderFilter.processSample mst a e r n m).2.stage1State =
      fixDenormalNumbers (MSPMoogLadderFilter.compute mst a e r n).updatedStage1 ∧
    (MSPMoogLadderFilter.processSample mst a e r n m).2.stage2State =
      fixDenormalNumbers (MSPMoogLadderFilter.compute mst a e r n).updatedStage2 ∧
    (MSPMoogLadderFilter.processSample mst a e r n m).2.stage3State =
      fixDenormalNumbers (MSPMoogLadderFilter.compute mst a e r n).updatedStage3 ∧
    (MSPMoogLadderFilter.processSample mst a e r n m).2.stage4State =
      fixDenormalNumbers (MSPMoogLadderFilter.compute mst a e r n).updatedStage4 :=
  ⟨rfl, rfl, rfl, rfl, rfl, rfl, rfl, rfl, rfl, rfl, rfl, rfl, rfl, rfl, rfl⟩

/-- Counterexample to C3 as stated: from the scalar core's reset state with
inputs `(1, 0, 1, 0)`, the committed first-stage state is the first pass's
`expr15` (here 0), not the second pass's corrected stage-1 value `expr37`
(nonzero) — so not all committed stage values are second-pass values. -/
theorem C3_scalar_stage1_commit_cex :
    (MoogLadderFilterScalar.process stS0 1 0 1 0).2.s1 ≠
      (MoogLadderFilterScalar.compute stS0 1 1 0).expr37 := by
  norm_num [MoogLadderFilterScalar.process, MoogLadderFilterScalar.compute,
    MoogLadderFilterScalar.commit, stS0, MoogLadderFilterScalar.reset,
    clamp, fixdenorm, min_def, max_def]

/-! ## C5 -/

/-- `fixDenormalNumbers` leaves a value that is exactly zero or at least
the double-precision denormal threshold in magnitude. -/
lemma fixDenormalNumbers_ok (x : ℚ) :
    fixDenormalNumbers x = 0 ∨ 1e-18 ≤ |fixDenormalNumbers x| := by
  unfold fixDenormalNumbers
  split_ifs with h
  · exact Or.inl rfl
  · exact Or.inr (not_lt.mp h)

/-- **C5** (amended): after every `processSample` call of the MSP
(double-precision) core, each stored state value — previous input, smoothed
cutoff, resonance coefficient, the four stage states, the saturation
register and the three output-history registers — is either exactly zero or
at least 1e-18 in magnitude, because each passes through the DenormalGuard
`fixDenormalNumbers` before being stored.  (The single-precision scalar
translation does *not* guard its stores — see the counterexample — it
applies `fixdenorm` only when reading `previn` back.) -/
theorem C5_msp_denormal_guard (mst : MSPMoogLadderFilter) (a e r n : ℚ) (m : ℤ) :
    ((MSPMoogLadderFilter.processSample mst a e r n m).2.previousInput = 0 ∨
      1e-18 ≤ |(MSPMoogLadderFilter.processSample mst a e r n m).2.previousInput|) ∧
    ((MSPMoogLadderFilter.processSample mst a e r n m).2.cutoffFrequency = 0 ∨
      1e-18 ≤ |(MSPMoogLadderFilter.processSample mst a e r n m).2.cutoffFrequency|) ∧
    ((MSPMoogLadderFilter.processSample mst a e r n m).2.resonanceCoefficient = 0 ∨
      1e-18 ≤ |(MSPMoogLadderFilter.processSample mst a e r n m).2.resonanceCoefficient|) ∧
    ((MSPMoogLadderFilter.processSample mst a e r n m).2.stage1State = 0 ∨
      1e-18 ≤ |(MSPMoogLadderFilter.processSample mst a e r n m).2.stage1State|) ∧
    ((MSPMoogLadderFilter.processSample mst a e r n m).2.stage2State = 0 ∨
      1e-18 ≤ |(MSPMoogLadderFilter.processSample mst a e r n m).2.stage2State|) ∧
    ((MSPMoogLadderFilter.processSample mst a e r n m).2.stage3State = 0 ∨
      1e-18 ≤ |(MSPMoogLadderFilter.processSample mst a e r n m).2.stage3State|) ∧
    ((MSPMoogLadderFilter.processSample mst a e r n m).2.stage4State = 0 ∨
      1e-18 ≤ |(MSPMoogLadderFilter.processSample mst a e r n m).2.stage4State|) ∧
    ((MSPMoogLadderFilter.processSample mst a e r n m).2.saturationState = 0 ∨
      1e-18 ≤ |(MSPMoogLadderFilter.processSample mst a e r n m).2.saturationState|) ∧
    ((MSPMoogLadderFilter.processSample mst a e r n m).2.stage4DelayedOutput = 0 ∨
      1e-18 ≤ |(MSPMoogLadderFilter.processSample mst a e r n m).2.stage4DelayedOutput|) ∧
    ((MSPMoogLadderFilter.processSample mst a e r n m).2.combinedOutput1 = 0 ∨
      1e-18 ≤ |(MSPMoogLadderFilter.processSample mst a e r n m).2.combinedOutput1|) ∧
    ((MSPMoogLadderFilter.processSample mst a e r n m).2.combinedOutput2 = 0 ∨
      1e-18 ≤ |(MSPMoogLadderFilter.processSample mst a e r n m).2.combinedOutput2|) :=
  ⟨fixDenormalNumbers_ok _, fixDenormalNumbers_ok _, fixDenormalNumbers_ok _,
   fixDenormalNumbers_ok _, fixDenormalNumbers_ok _, fixDenormalNumbers_ok _,
   fixDenormalNumbers_ok _, fixDenormalNumbers_ok _, fixDenormalNumbers_ok _,
   fixDenormalNumbers_ok _, fixDenormalNumbers_ok _⟩

/-! ## C4 -/

/-- Two SIMD filter states with equal lanes and equal scalar fields are
equal. -/
lemma simdStateEq (a b : MoogLadderFilterSIMD)
    (h1 : ∀ i, a.s1 i = b.s1 i) (h2 : ∀ i, a.s2 i = b.s2 i)
    (h3 : ∀ i, a.s3 i = b.s3 i) (h4 : ∀ i, a.s4 i = b.s4 i)
    (h5 : ∀ i, a.s5 i = b.s5 i) (h6 : ∀ i, a.s6 i = b.s6 i)
    (h7 : ∀ i, a.s7 i = b.s7 i) (h8 : ∀ i, a.s8 i = b.s8 i)
    (h9 : ∀ i, a.slim i = b.slim i) (h10 : ∀ i, a.previn i = b.previn i)
    (h11 : ∀ i, a.rc i = b.rc i) (h12 : ∀ i, a.fc i = b.fc i)
    (h13 : ∀ i, a.expr1 i = b.expr1 i) (h14 : ∀ i, a.expr2 i = b.expr2 i)
    (h15 : a.expr1_scalar = b.expr1_scalar) (h16 : a.expr2_scalar = b.expr2_scalar)
    (h17 : a.sr = b.sr) (h18 : a.mode = b.mode) : a = b := by
  cases a; cases b
  simp only [MoogLadderFilterSIMD.mk.injEq]
  exact ⟨funext h1, funext h2, funext h3, funext h4, funext h5, funext h6,
    funext h7, funext h8, funext h9, funext h10, funext h11, funext h12,
    funext h13, funext h14, h15, h16, h17, h18⟩

/-- Each lane of `MoogLadderFilterSIMD::process` computes exactly the
scalar function `simdLane`, and commits its `previn`, `slim`, `s1`–`s3`
components while leaving `s4`–`s8`, `rc` and `fc` untouched. -/
lemma simd_process_lane (est : ℚ → ℚ) (st : MoogLadderFilterSIMD)
    (in1 in2 in3 in4 : F4) (i : Fin 4) :
    (MoogLadderFilterSIMD.process est st in1 in2 in3 in4).1 i =
      (simdLane est (st.s1 i) (st.s2 i) (st.s3 i) (st.s5 i) (st.slim i)
        (st.previn i) (st.rc i) (st.fc i) (in1 i) (in3 i) (in4 i)).1 ∧
    (MoogLadderFilterSIMD.process est st in1 in2 in3 in4).2.previn i =
      (simdLane est (st.s1 i) (st.s2 i) (st.s3 i) (st.s5 i) (st.slim i)
        (st.previn i) (st.rc i) (st.fc i) (in1 i) (in3 i) (in4 i)).2.1 ∧
    (MoogLadderFilterSIMD.process est st in1 in2 in3 in4).2.slim i =
      (simdLane est (st.s1 i) (st.s2 i) (st.s3 i) (st.s5 i) (st.slim i)
        (st.previn i) (st.rc i) (st.fc i) (in1 i) (in3 i) (in4 i)).2.2.1 ∧
    (MoogLadderFilterSIMD.process est st in1 in2 in3 in4).2.s1 i =
      (simdLane est (st.s1 i) (st.s2 i) (st.s3 i) (st.s5 i) (st.slim i)
        (st.previn i) (st.rc i) (st.fc i) (in1 i) (in3 i) (in4 i)).2.2.2.1 ∧
    (MoogLadderFilterSIMD.process est st in1 in2 in3 in4).2.s2 i =
      (simdLane est (st.s1 i) (st.s2 i) (st.s3 i) (st.s5 i) (st.slim i)
        (st.previn i) (st.rc i) (st.fc i) (in1 i) (in3 i) (in4 i)).2.2.2.2.1 ∧
    (MoogLadderFilterSIMD.process est st in1 in2 in3 in4).2.s3 i =
      (simdLane est (st.s1 i) (st.s2 i) (st.s3 i) (st.s5 i) (st.slim i)
        (st.previn i) (st.rc i) (st.fc i) (in1 i) (in3 i) (in4 i)).2.2.2.2.2 ∧
    (MoogLadderFilterSIMD.process est st in1 in2 in3 in4).2.s4 i = st.s4 i ∧
    (MoogLadderFilterSIMD.process est st in1 in2 in3 in4).2.s5 i = st.s5 i ∧
    (MoogLadderFilterSIMD.process est st in1 in2 in3 in4).2.s6 i = st.s6 i ∧
    (MoogLadderFilterSIMD.process est st in1 in2 in3 in4).2.s7 i = st.s7 i ∧
    (MoogLadderFilterSIMD.process est st in1 in2 in3 in4).2.s8 i = st.s8 i ∧
    (MoogLadderFilterSIMD.process est st in1 in2 in3 in4).2.rc i = st.rc i ∧
    (MoogLadderFilterSIMD.process est st in1 in2 in3 in4).2.fc i = st.fc i := by
  refine ⟨?_, rfl, rfl, rfl, rfl, rfl, rfl, rfl, rfl, rfl, rfl, rfl, rfl⟩
  simp only [MoogLadderFilterSIMD.process, ite_self]
  rfl

/-- The median-of-three identity between the two clamp orientations used by
the scalar core (`min (max x a) b`) and the SIMD core
(`max (min x b) a`). -/
lemma clamp_orient (x a b : ℚ) (hab : a ≤ b) :
    clamp x a b = max (min x b) a := by
  unfold clamp
  rcases le_total x a with h | h <;> rcases le_total x b with h1 | h1 <;>
    simp [min_def, max_def] <;> split_ifs <;> linarith

/-- **C4** (amended): (1) the vector backend is lanewise a scalar function:
each lane of `MoogLadderFilterSIMD::process` computes `simdLane` — the
first-pass prefix of the Gen~ algorithm ending at the stage-3 value
`expr30` — and its output is the same for every mode.  (2) Under the exact
reciprocal estimate (for which the Newton-Raphson refinement is exact) and
a previous-input lane that `fixdenorm` leaves unchanged, that lane function
agrees exactly with the scalar core's first-pass `expr30`.  The truncation
is why full scalar/vector output agreement within 1e-4 fails (see the
counterexample).  (3) The fixed-point backend outputs identically 0 from
its configured reset state, so scalar/fixed-point agreement within the
quantization step fails wherever the scalar output exceeds it. -/
theorem C4_backend_agreement_amended :
    (∀ (est : ℚ → ℚ) (st : MoogLadderFilterSIMD) (in1 in2 in3 in4 : F4)
      (m : ℤ) (i : Fin 4),
      (MoogLadderFilterSIMD.process est st in1 in2 in3 in4).1 i =
        (simdLane est (st.s1 i) (st.s2 i) (st.s3 i) (st.s5 i) (st.slim i)
          (st.previn i) (st.rc i) (st.fc i) (in1 i) (in3 i) (in4 i)).1 ∧
      (MoogLadderFilterSIMD.process est { st with mode := m } in1 in2 in3 in4).1 =
        (MoogLadderFilterSIMD.process est st in1 in2 in3 in4).1) ∧
    (∀ s1 s2 s3 s5 slim previn rc fc in1 in3 in4 : ℚ,
      fixdenorm previn = previn →
      (simdLane exactRecip s1 s2 s3 s5 slim previn rc fc in1 in3 in4).1 =
        (MoogLadderFilterScalar.compute
          ⟨s1, s2, s3, 0, s5, 0, 0, 0, slim, previn, rc, fc, 0, 0, 0, 0⟩
          in1 in3 in4).expr30) ∧
    (∀ (st0 : MoogLadderFilterFixedPoint) (sr freq res : ℤ) (ins : List ℤ),
      0 < sr →
      ((((MoogLadderFilterFixedPoint.construct sr st0).setCutoff
          freq).setResonance res).run ins).1 = List.replicate ins.length 0) := by
  refine ⟨?_, ?_, ?_⟩
  · intro est st in1 in2 in3 in4 m i
    refine ⟨(simd_process_lane est st in1 in2 in3 in4 i).1, ?_⟩
    simp only [MoogLadderFilterSIMD.process, ite_self]
  · intro s1 s2 s3 s5 slim previn rc fc in1 in3 in4 hpre
    have hdiv : (1.05 * max in3 1e-5 - rc) * ((2 - 4 * exactRecip 4) * exactRecip 4) =
        (1.05 * max in3 1e-5 - rc) / 4 := by
      norm_num [exactRecip]
      ring
    have horient : ∀ x : ℚ, clamp x (-1) 1 = max (min x 1) (-1) :=
      fun x => clamp_orient x (-1) 1 (by norm_num)
    simp only [simdLane, MoogLadderFilterScalar.compute, hdiv, hpre, horient,
      sub_neg_eq_add, neg_mul, ← sub_eq_add_neg]
  · intro st0 sr freq res ins hsr
    exact MoogLadderFilterFixedPoint.run_zero ins _
      (MoogLadderFilterFixedPoint.setCutoff_alpha _ freq)
      (MoogLadderFilterFixedPoint.setCutoff_feedbackAmount _ freq) rfl rfl rfl rfl

/-- Witness for C4 (amended) at concrete inputs: the lane/scalar prefix
agreement at `previn = 1` (where `fixdenorm` is the identity), and the
all-zero fixed-point output on inputs `[1, 2, 3]` at sample rate 44100. -/
theorem C4_backend_agreement_amended_witness :
    fixdenorm 1 = 1 ∧
    (simdLane exactRecip 0 0 0 0 0 1 0 1 1 1 0).1 =
      (MoogLadderFilterScalar.compute
        ⟨0, 0, 0, 0, 0, 0, 0, 0, 0, 1, 0, 1, 0, 0, 0, 0⟩ 1 1 0).expr30 ∧
    ((((MoogLadderFilterFixedPoint.construct 44100 fpBase).setCutoff
        500).setResonance 100).run [1, 2, 3]).1 = List.replicate 3 0 :=
  ⟨by norm_num [fixdenorm],
   C4_backend_agreement_amended.2.1 0 0 0 0 0 1 0 1 1 1 0 (by norm_num [fixdenorm]),
   C4_backend_agreement_amended.2.2 fpBase 44100 500 100 [1, 2, 3] (by norm_num)⟩

set_option maxRecDepth 8192 in
/-- Counterexample to C4 as stated.  Both the scalar and the SIMD backend,
freshly reset, are unchanged by four all-zero samples (first three
conjuncts), so after those N = 4 samples both are still in their reset
states; yet on the fifth, identical sample `(1, 0, 1, 0)` per lane the
scalar output (the dual-pass LP24 value `expr51`) exceeds the SIMD lane
output (the truncated first-pass stage-3 value `expr30`) by more than
1e-4.  Moreover the scalar output exceeds 1.5e-5 while the fixed-point
backend (sample rate 44100, cutoff 1000, resonance 255) outputs 0 on the
whole input sequence `[0,0,0,0,1]`, so the claimed scalar/fixed-point
quantization-step agreement fails as well. -/
theorem C4_backend_divergence_cex :
    MoogLadderFilterScalar.process stS0 0 0 0 0 = (0, stS0) ∧
    (MoogLadderFilterSIMD.process exactRecip simdSt0 zeroF4 zeroF4 zeroF4 zeroF4).1 0 = 0 ∧
    (MoogLadderFilterSIMD.process exactRecip simdSt0 zeroF4 zeroF4 zeroF4 zeroF4).2 = simdSt0 ∧
    (MoogLadderFilterScalar.process stS0 1 0 1 0).1 -
      (MoogLadderFilterSIMD.process exactRecip simdSt0 oneF4 zeroF4 oneF4 zeroF4).1 0 > 1e-4 ∧
    (MoogLadderFilterScalar.process stS0 1 0 1 0).1 > 1.5e-5 ∧
    ((((MoogLadderFilterFixedPoint.construct 44100 fpBase).setCutoff
        1000).setResonance 255).run [0, 0, 0, 0, 1]).1 = List.replicate 5 0 := by
  refine ⟨?_, ?_, ?_, ?_, ?_, ?_⟩
  · norm_num [MoogLadderFilterScalar.process, MoogLadderFilterScalar.compute,
      MoogLadderFilterScalar.output, MoogLadderFilterScalar.commit, stS0,
      MoogLadderFilterScalar.reset, clamp, fixdenorm, min_def, max_def,
      Prod.ext_iff, MoogLadderFilterScalar.mk.injEq]
  · rw [(simd_process_lane exactRecip simdSt0 zeroF4 zeroF4 zeroF4 zeroF4 0).1]
    norm_num [simdLane, simdSt0, MoogLadderFilterSIMD.reset, zeroF4, vdupq_n_f32,
      exactRecip, min_def, max_def]
  · refine simdStateEq _ _ ?_ ?_ ?_ ?_ ?_ ?_ ?_ ?_ ?_ ?_ ?_ ?_ ?_ ?_ rfl rfl rfl rfl <;>
      intro i <;>
      norm_num [MoogLadderFilterSIMD.process, simd_clamp_f32x4, vdivq_f32,
        vrecpeq_f32, vrecpsq_f32, vmlaq_f32, vaddq_f32, vsubq_f32, vmulq_f32,
        vmaxq_f32, vminq_f32, vdupq_n_f32, simdSt0, MoogLadderFilterSIMD.reset,
        zeroF4, exactRecip, min_def, max_def]
  · rw [(simd_process_lane exactRecip simdSt0 oneF4 zeroF4 oneF4 zeroF4 0).1]
    norm_num [MoogLadderFilterScalar.process, MoogLadderFilterScalar.compute,
      MoogLadderFilterScalar.output, stS0, MoogLadderFilterScalar.reset,
      simdLane, simdSt0, MoogLadderFilterSIMD.reset, zeroF4, oneF4, vdupq_n_f32,
      exactRecip, clamp, fixdenorm, min_def, max_def]
  · norm_num [MoogLadderFilterScalar.process, MoogLadderFilterScalar.compute,
      MoogLadderFilterScalar.output, stS0, MoogLadderFilterScalar.reset,
      clamp, fixdenorm, min_def, max_def]
  · refine MoogLadderFilterFixedPoint.run_zero [0, 0, 0, 0, 1] _ ?_ ?_ rfl rfl rfl rfl
    · show ((MoogLadderFilterFixedPoint.construct 44100 fpBase).setCutoff 1000).alpha = 0
      exact MoogLadderFilterFixedPoint.setCutoff_alpha _ 1000
    · show ((MoogLadderFilterFixedPoint.construct 44100 fpBase).setCutoff 1000).feedbackAmount = 0
      exact MoogLadderFilterFixedPoint.setCutoff_feedbackAmount _ 1000

/-- Counterexample to C5 as stated: the single-precision scalar core stores
`previn` raw — after one `process` call on input 1e-35 from the reset state
the stored previous-input register holds 1e-35, which is neither zero nor
of magnitude at least the claimed single-precision threshold 1e-30. -/
theorem C5_scalar_raw_store_cex :
    (MoogLadderFilterScalar.process stS0 1e-35 0 0 0).2.previn ≠ 0 ∧
    |(MoogLadderFilterScalar.process stS0 1e-35 0 0 0).2.previn| < 1e-30 := by
  norm_num [MoogLadderFilterScalar.process, MoogLadderFilterScalar.compute,
    MoogLadderFilterScalar.commit, stS0, MoogLadderFilterScalar.reset, abs]

end TR123e
